import Mathlib

/-!
Shallow embedding of the `vesting_calc` reward/vesting engine
(`src/models.py`, `src/rewards_calculators.py`, `src/utils.py`).

Conventions of the embedding:
* Python ints are modelled as `ℤ`.
* Python floats are modelled as exact rationals `ℚ` (the engine only uses
  `+ - *`, true division `/`, floor division `//` and `int(...)` on them, so
  the exact-arithmetic model reproduces the intended values; every
  counterexample below uses inputs whose float arithmetic is exact).
* Python `//` on ints is `Int.fdiv` (floor division), `%` is `Int.fmod`;
  on floats it is `fdivQ` (rational floor division, result kept in `ℚ`).
* A Python `dict[int, list[int]]` is modelled as an association list
  `List (ℤ × List ℤ)` in insertion order; `dictGet` is `d.get(k, [])`
  (first match, which coincides with dict semantics since dict keys are
  unique).
* Fallible construction (`pydantic` validation in `models.py`) is modelled
  by `validateAndNormalize : TestScenarioParameters → Option TestScenarioParameters`,
  returning the normalized (auto-filled) snapshot exactly when every
  validator passes.
* Runtime `ZeroDivisionError` is modelled with `Except PyError`.
-/

/-- Python `//` on rationals (floats): floor division, result as a rational.
`b = 0` raises in Python; callers guard with validation facts. -/
def fdivQ (a b : ℚ) : ℚ := (⌊a / b⌋ : ℚ)

/-- Python `int(...)` on a rational (float): truncation toward zero. -/
def pyInt (x : ℚ) : ℤ := if x < 0 then ⌈x⌉ else ⌊x⌋

/-- Python `round(x)` to an integer: round half to even (banker's rounding). -/
def pyRoundInt (x : ℚ) : ℤ :=
  if x - ⌊x⌋ < 1/2 then ⌊x⌋
  else if (1:ℚ)/2 < x - ⌊x⌋ then ⌊x⌋ + 1
  else if Even ⌊x⌋ then ⌊x⌋ else ⌊x⌋ + 1

/-- Python `list(range(a, b))` on ints. -/
def intRange (a b : ℤ) : List ℤ := (List.range (b - a).toNat).map (fun i : ℕ => a + (i : ℤ))

/-- Python `d.get(cu, [])` on a `dict[int, list[int]]`. -/
def dictGet : List (ℤ × List ℤ) → ℤ → List ℤ
  | [], _ => []
  | (k, v) :: es, c => if k = c then v else dictGet es c

/-- `sum(len(epochs) for epochs in slashed_epochs.values())` (`models.py:152`). -/
def totalSlashed (d : List (ℤ × List ℤ)) : ℤ := (d.map (fun p => (p.2.length : ℤ))).sum

/-- `models.NetworkParameters` (field bounds are enforced by `fieldOk`). -/
structure NetworkParameters where
  epoch_duration : ℤ
  usd_collateral_per_unit : ℚ
  usd_target_revenue_per_epoch : ℚ
  flt_usd_price : ℚ
  min_reward_pool : ℚ
  max_reward_pool : ℚ
  max_fail_ratio : ℤ
  deriving DecidableEq, Repr

/-- `models.VestingParameters`. -/
structure VestingParameters where
  vesting_period_count : ℤ
  vesting_period_duration : ℤ
  deriving DecidableEq, Repr

/-- `models.CCCreationParameters`. -/
structure CCCreationParameters where
  cu_amount : ℤ
  cc_start_epoch : ℤ
  cc_end_epoch : ℤ
  staking_rate : ℤ
  deriving DecidableEq, Repr

/-- `models.CCFailingParams`; `slashed_epochs` in dict insertion order. -/
structure CCFailingParams where
  cc_fail_epoch : ℤ
  slashed_epochs : List (ℤ × List ℤ)
  deriving DecidableEq, Repr

/-- `models.CCDealParameters`. -/
structure CCDealParameters where
  deal_start_epoch : ℤ
  deal_end_epoch : ℤ
  amount_of_cu_to_move_to_deal : ℤ
  price_per_cu_in_offer_usd : ℚ
  deriving DecidableEq, Repr

/-- `models.TestScenarioParameters` (aggregate root). -/
structure TestScenarioParameters where
  network_params : NetworkParameters
  vesting_params : VestingParameters
  creation_params : CCCreationParameters
  failing_params : CCFailingParams
  deal_params : CCDealParameters
  precision : ℤ
  current_epoch : ℤ
  withdrawal_epoch : ℤ
  deriving DecidableEq, Repr

/-- All pydantic field-level constraints (`Field(ge/gt/le=...)`) and
per-model field validators of `models.py`. -/
def fieldOk (s : TestScenarioParameters) : Prop :=
  1 ≤ s.network_params.epoch_duration ∧
  0 < s.network_params.usd_collateral_per_unit ∧
  0 < s.network_params.usd_target_revenue_per_epoch ∧
  0 < s.network_params.flt_usd_price ∧
  0 ≤ s.network_params.min_reward_pool ∧
  0 ≤ s.network_params.max_reward_pool ∧
  0 ≤ s.network_params.max_fail_ratio ∧
  1 ≤ s.vesting_params.vesting_period_count ∧
  1 ≤ s.vesting_params.vesting_period_duration ∧
  1 ≤ s.creation_params.cu_amount ∧
  1 ≤ s.creation_params.cc_start_epoch ∧
  1 ≤ s.creation_params.cc_end_epoch ∧
  s.creation_params.cc_start_epoch < s.creation_params.cc_end_epoch ∧
  0 ≤ s.creation_params.staking_rate ∧ s.creation_params.staking_rate ≤ 100 ∧
  0 ≤ s.failing_params.cc_fail_epoch ∧
  (∀ p ∈ s.failing_params.slashed_epochs, ∀ e ∈ p.2, 1 ≤ e) ∧
  0 ≤ s.deal_params.deal_start_epoch ∧
  0 ≤ s.deal_params.deal_end_epoch ∧
  (s.deal_params.deal_start_epoch ≠ 0 →
    s.deal_params.deal_start_epoch < s.deal_params.deal_end_epoch) ∧
  (s.deal_params.amount_of_cu_to_move_to_deal = 0 →
    s.deal_params.deal_start_epoch = 0) ∧
  0 ≤ s.deal_params.amount_of_cu_to_move_to_deal ∧
  0 < s.deal_params.price_per_cu_in_offer_usd ∧
  0 ≤ s.precision ∧
  1 ≤ s.current_epoch ∧
  0 ≤ s.withdrawal_epoch

instance (s : TestScenarioParameters) : Decidable (fieldOk s) := by
  unfold fieldOk; infer_instance

/-- The slashing-during-deal check of `models.validate_all` (lines 104-112):
no CU assigned to the deal may have a slashed epoch inside the inclusive
deal window while the deal is active.  Note the source runs this check
BEFORE auto-filling `slashed_epochs`. -/
def dealSlashOk (s : TestScenarioParameters) : Prop :=
  ∀ p ∈ s.failing_params.slashed_epochs,
    p.1 ≤ s.deal_params.amount_of_cu_to_move_to_deal →
    ∀ e ∈ p.2,
      ¬(s.deal_params.deal_start_epoch ≤ e ∧ e ≤ s.deal_params.deal_end_epoch ∧
        s.deal_params.deal_start_epoch ≠ 0 ∧ s.deal_params.deal_end_epoch ≠ 0 ∧
        s.deal_params.amount_of_cu_to_move_to_deal ≠ 0)

instance (s : TestScenarioParameters) : Decidable (dealSlashOk s) := by
  unfold dealSlashOk; infer_instance

/-- Slashed epoch list for one CU produced by
`models._fill_slashed_epochs_for_failure`: `[F-base+1 .. F]`, with `F-base`
prepended (`insert(0, ...)`) for the first `remainder` CUs. -/
def fillCuList (ccFailEpoch base rem c : ℤ) : List ℤ :=
  if c ≤ rem then
    (ccFailEpoch - base) :: intRange (ccFailEpoch - base + 1) (ccFailEpoch + 1)
  else
    intRange (ccFailEpoch - base + 1) (ccFailEpoch + 1)

/-- The `for cu in range(1, total_cu_amount + 1)` loop of
`models._fill_slashed_epochs_for_failure`, building entries for CUs
`c0, c0+1, ...` (`k` entries). -/
def fillFrom (ccFailEpoch base rem : ℤ) : ℤ → ℕ → List (ℤ × List ℤ)
  | _, 0 => []
  | c0, k+1 => (c0, fillCuList ccFailEpoch base rem c0) :: fillFrom ccFailEpoch base rem (c0 + 1) k

/-- `models._fill_slashed_epochs_for_failure(cc_fail_epoch, max_fail_amount,
total_cu_amount, {})`. -/
def fillSlashedEpochsForFailure (ccFailEpoch maxFailAmount totalCuAmount : ℤ) :
    List (ℤ × List ℤ) :=
  fillFrom ccFailEpoch (maxFailAmount.fdiv totalCuAmount) (maxFailAmount.fmod totalCuAmount)
    1 totalCuAmount.toNat

/-- `int(network_params.max_fail_ratio * creation_params.cu_amount)`
(`models.py:141`, both factors are ints). -/
def maxFailAmount (s : TestScenarioParameters) : ℤ :=
  s.network_params.max_fail_ratio * s.creation_params.cu_amount

/-- The auto-fill step of `models.fill_slashed_epochs`: when `cc_fail_epoch`
is set and no slashing was supplied, replace `slashed_epochs` by the filled
schedule; all other fields unchanged. -/
def fillScenario (s : TestScenarioParameters) : TestScenarioParameters :=
  { s with failing_params :=
    { cc_fail_epoch := s.failing_params.cc_fail_epoch
      slashed_epochs :=
        if s.failing_params.cc_fail_epoch ≠ 0 ∧ s.failing_params.slashed_epochs = [] then
          fillSlashedEpochsForFailure s.failing_params.cc_fail_epoch (maxFailAmount s)
            s.creation_params.cu_amount
        else s.failing_params.slashed_epochs } }

/-- Success condition of `models._validate_slashed_epochs`: with
`cc_fail_epoch` set the total may not be BELOW `max_fail_amount`; with it
unset the total may not exceed `max_fail_amount`. -/
def validateSlashedTotalsOk (ccFailEpoch total maxAmt : ℤ) : Prop :=
  (ccFailEpoch ≠ 0 → maxAmt ≤ total) ∧ (ccFailEpoch = 0 → total ≤ maxAmt)

instance (a b c : ℤ) : Decidable (validateSlashedTotalsOk a b c) := by
  unfold validateSlashedTotalsOk; infer_instance

/-- `models.update_reward_pools`: when both pools are zero, set both to
`(usd_target_revenue_per_epoch / flt_usd_price) * cu_amount`. -/
def updatePools (s : TestScenarioParameters) : TestScenarioParameters :=
  { s with network_params :=
    { s.network_params with
      min_reward_pool :=
        if s.network_params.min_reward_pool = 0 ∧ s.network_params.max_reward_pool = 0 then
          s.network_params.usd_target_revenue_per_epoch / s.network_params.flt_usd_price *
            s.creation_params.cu_amount
        else s.network_params.min_reward_pool
      max_reward_pool :=
        if s.network_params.min_reward_pool = 0 ∧ s.network_params.max_reward_pool = 0 then
          s.network_params.usd_target_revenue_per_epoch / s.network_params.flt_usd_price *
            s.creation_params.cu_amount
        else s.network_params.max_reward_pool } }

/-- `cc_fail_epoch`, if set, lies inside `[cc_start_epoch, cc_end_epoch]`
(`models.validate_all`, lines 117-127). -/
def failWindowOk (s : TestScenarioParameters) : Prop :=
  s.failing_params.cc_fail_epoch ≠ 0 →
    s.failing_params.cc_fail_epoch ≤ s.creation_params.cc_end_epoch ∧
    s.creation_params.cc_start_epoch ≤ s.failing_params.cc_fail_epoch

instance (s : TestScenarioParameters) : Decidable (failWindowOk s) := by
  unfold failWindowOk; infer_instance

/-- `withdrawal_epoch`, if set (truthy), is not after `current_epoch`
(`models.validate_all`, lines 129-131). -/
def withdrawalOk (s : TestScenarioParameters) : Prop :=
  s.withdrawal_epoch ≠ 0 → s.withdrawal_epoch ≤ s.current_epoch

instance (s : TestScenarioParameters) : Decidable (withdrawalOk s) := by
  unfold withdrawalOk; infer_instance

/-- Snapshot construction (`TestScenarioParameters` pydantic validation):
all field validators, the cross-field checks of `validate_all`, the
auto-fill of the slashing schedule and the reward-pool derivation.  Returns
the normalized snapshot the engine runs on, or `none` when any validator
raises.  (The slash-total check runs on the FILLED schedule, while the
slash-during-deal check runs on the supplied one, as in the source.) -/
def validateAndNormalize (s : TestScenarioParameters) : Option TestScenarioParameters :=
  if fieldOk s ∧
     s.deal_params.amount_of_cu_to_move_to_deal ≤ s.creation_params.cu_amount ∧
     dealSlashOk s ∧
     validateSlashedTotalsOk s.failing_params.cc_fail_epoch
       (totalSlashed (fillScenario s).failing_params.slashed_epochs) (maxFailAmount s) ∧
     failWindowOk s ∧
     withdrawalOk s
  then some (updatePools (fillScenario s)) else none

/-- `flt_reward_per_epoch = usd_target_revenue_per_epoch * precision //
flt_usd_price` (`rewards_calculators.calculate_period_rewards_for_cc`,
lines 106-108; multiplication before floor division). -/
def fltRewardPerEpoch (s : TestScenarioParameters) (precision : ℤ) : ℚ :=
  fdivQ (s.network_params.usd_target_revenue_per_epoch * (precision : ℚ))
    s.network_params.flt_usd_price

/-- The deal-epoch test of the accrual loop (lines 118-120):
`(deal_start_epoch != 0 and amount_of_cu_to_move_to_deal != 0) and
(deal_start_epoch <= epoch < deal_end_epoch)`. -/
def dealActiveAt (s : TestScenarioParameters) (epoch : ℤ) : Prop :=
  (s.deal_params.deal_start_epoch ≠ 0 ∧ s.deal_params.amount_of_cu_to_move_to_deal ≠ 0) ∧
  (s.deal_params.deal_start_epoch ≤ epoch ∧ epoch < s.deal_params.deal_end_epoch)

instance (s : TestScenarioParameters) (epoch : ℤ) : Decidable (dealActiveAt s epoch) := by
  unfold dealActiveAt; infer_instance

/-- `active_cus` for one epoch of the accrual loop (lines 115-121). -/
def activeCus (s : TestScenarioParameters) (epoch : ℤ) : ℤ :=
  if dealActiveAt s epoch then
    s.creation_params.cu_amount - s.deal_params.amount_of_cu_to_move_to_deal
  else s.creation_params.cu_amount

/-- `slashed_cus = sum(1 for cu in range(1, cu_amount + 1) if epoch in
slashed_epochs.get(cu, []))` (lines 125-129). -/
def slashedCus (s : TestScenarioParameters) (epoch : ℤ) : ℤ :=
  (((Finset.Icc (1 : ℤ) s.creation_params.cu_amount).filter
    (fun cu => epoch ∈ dictGet s.failing_params.slashed_epochs cu)).card : ℤ)

/-- `epoch_rewards = (active_cus - slashed_cus) * flt_reward_per_epoch`
(line 132). -/
def ccEpochReward (s : TestScenarioParameters) (epoch precision : ℤ) : ℚ :=
  ((activeCus s epoch - slashedCus s epoch : ℤ) : ℚ) * fltRewardPerEpoch s precision

/-- The `for epoch in range(start_epoch, end_epoch)` accumulation of
`calculate_period_rewards_for_cc`, iterating `k` epochs from `e`. -/
def ccRangeRewards (s : TestScenarioParameters) (precision : ℤ) : ℤ → ℕ → ℚ
  | _, 0 => 0
  | e, k+1 => ccEpochReward s e precision + ccRangeRewards s precision (e + 1) k

/-- `period_rewards` returned by `calculate_period_rewards_for_cc(start_epoch,
end_epoch, params, precision)`. -/
def periodRewardsForCC (s : TestScenarioParameters) (startEpoch endEpoch precision : ℤ) : ℚ :=
  ccRangeRewards s precision startEpoch (endEpoch - startEpoch).toNat

/-- `deal_epochs` returned by `calculate_period_rewards_for_cc`: the epochs
of the range recorded as deal epochs (line 122). -/
def ccDealEpochs (s : TestScenarioParameters) (startEpoch endEpoch : ℤ) : List ℤ :=
  (intRange startEpoch endEpoch).filter (fun e => dealActiveAt s e)

/-- `last_epoch_to_count_rewards` of `calculate_vesting` (lines 153-157)
and `calculate_average_apr` (lines 56-61): `min(cc_end_epoch,
current_epoch)`, further clamped by `cc_fail_epoch` when positive. -/
def ccLastCountable (s : TestScenarioParameters) : ℤ :=
  if 0 < s.failing_params.cc_fail_epoch then
    min (min s.creation_params.cc_end_epoch s.current_epoch) s.failing_params.cc_fail_epoch
  else min s.creation_params.cc_end_epoch s.current_epoch

/-- `periods_since_end = max(0, (ref - period_end) // duration + 1)`
(`calculate_vesting`, lines 220-225 and 236-239, with `ref` the current or
the withdrawal epoch). -/
def periodsSinceEnd (ref periodEnd duration : ℤ) : ℤ :=
  max 0 ((ref - periodEnd).fdiv duration + 1)

/-- `unlocked_fraction = min(periods_since_end * precision //
vesting_period_count, precision)` (`calculate_vesting`, lines 226-228 and
240-243). -/
def unlockedFraction (ref periodEnd duration count precision : ℤ) : ℤ :=
  min ((periodsSinceEnd ref periodEnd duration * precision).fdiv count) precision

/-- `first_vesting_period_start = cc_start_epoch - cc_start_epoch %
vesting_period_duration` (lines 174-176). -/
def ccFirstWindowStart (s : TestScenarioParameters) : ℤ :=
  s.creation_params.cc_start_epoch -
    s.creation_params.cc_start_epoch.fmod s.vesting_params.vesting_period_duration

/-- `last_vesting_period_start = last_epoch_to_count_rewards -
last_epoch_to_count_rewards % vesting_period_duration` (lines 177-179). -/
def ccLastWindowStart (s : TestScenarioParameters) : ℤ :=
  ccLastCountable s - (ccLastCountable s).fmod s.vesting_params.vesting_period_duration

/-- The window starts iterated by `range(first_vesting_period_start,
last_vesting_period_start + 1, vesting_period_duration)` (lines 199-203). -/
def ccWindowStarts (s : TestScenarioParameters) : List ℤ :=
  (List.range (((ccLastWindowStart s + 1 - ccFirstWindowStart s +
      s.vesting_params.vesting_period_duration - 1).fdiv
      s.vesting_params.vesting_period_duration).toNat)).map
    (fun k => ccFirstWindowStart s + (k : ℤ) * s.vesting_params.vesting_period_duration)

/-- `period_rewards` of one vesting window: the accrual of
`[max(period_start, cc_start_epoch), min(period_end,
last_epoch_to_count_rewards))` at the scenario precision (lines 204-216). -/
def ccPeriodReward (s : TestScenarioParameters) (periodStart : ℤ) : ℚ :=
  periodRewardsForCC s (max periodStart s.creation_params.cc_start_epoch)
    (min (periodStart + s.vesting_params.vesting_period_duration) (ccLastCountable s))
    s.precision

/-- `period_unlocked_rewards = period_rewards * unlocked_fraction_current //
precision` (lines 230-232). -/
def ccPeriodUnlocked (s : TestScenarioParameters) (periodStart : ℤ) : ℚ :=
  fdivQ (ccPeriodReward s periodStart *
    ((unlockedFraction s.current_epoch (periodStart + s.vesting_params.vesting_period_duration)
      s.vesting_params.vesting_period_duration s.vesting_params.vesting_period_count
      s.precision : ℤ) : ℚ)) (s.precision : ℚ)

/-- `period_withdrawn` of one window (lines 234-244): `0` unless
`withdrawal_epoch > 0 and withdrawal_epoch >= period_start`, else the same
unlock formula evaluated at the withdrawal epoch. -/
def ccPeriodWithdrawn (s : TestScenarioParameters) (periodStart : ℤ) : ℚ :=
  if 0 < s.withdrawal_epoch ∧ periodStart ≤ s.withdrawal_epoch then
    fdivQ (((unlockedFraction s.withdrawal_epoch
        (periodStart + s.vesting_params.vesting_period_duration)
        s.vesting_params.vesting_period_duration s.vesting_params.vesting_period_count
        s.precision : ℤ) : ℚ) * ccPeriodReward s periodStart) (s.precision : ℚ)
  else 0

/-- Accumulator of the `calculate_vesting` window loop:
`total_rewards_earned`, `total_withdrawn`, `unlocked_rewards`. -/
structure CCAgg where
  earned : ℚ
  withdrawn : ℚ
  unlocked : ℚ
  deriving DecidableEq, Repr

/-- One iteration of the window loop of `calculate_vesting` (lines 199-247),
skipping windows whose effective reward range is empty (line 208). -/
def ccStep (s : TestScenarioParameters) (agg : CCAgg) (periodStart : ℤ) : CCAgg :=
  if min (periodStart + s.vesting_params.vesting_period_duration) (ccLastCountable s) ≤
      max periodStart s.creation_params.cc_start_epoch then agg
  else
    { earned := agg.earned + ccPeriodReward s periodStart
      withdrawn := agg.withdrawn + ccPeriodWithdrawn s periodStart
      unlocked := agg.unlocked + (ccPeriodUnlocked s periodStart - ccPeriodWithdrawn s periodStart) }

/-- The full window loop of `calculate_vesting`. -/
def ccAgg (s : TestScenarioParameters) : CCAgg :=
  (ccWindowStarts s).foldl (ccStep s) ⟨0, 0, 0⟩

/-- `total_rewards_earned` of `calculate_vesting` (raw fixed point). -/
def ccTotalEarnedRaw (s : TestScenarioParameters) : ℚ := (ccAgg s).earned

/-- `total_withdrawn` of `calculate_vesting` (raw fixed point). -/
def ccTotalWithdrawnRaw (s : TestScenarioParameters) : ℚ := (ccAgg s).withdrawn

/-- `to_claim = unlocked_rewards` of `calculate_vesting` (raw fixed point). -/
def ccToClaimRaw (s : TestScenarioParameters) : ℚ := (ccAgg s).unlocked

/-- `rewards_in_vesting = max(0, total_rewards_earned - unlocked_rewards -
total_withdrawn)` (lines 279-281). -/
def ccInVestingRaw (s : TestScenarioParameters) : ℚ :=
  max 0 (ccTotalEarnedRaw s - ccToClaimRaw s - ccTotalWithdrawnRaw s)

/-- `provider_rewards = (total_rewards_earned * (100 - staking_rate) *
precision) // (100 * precision)` (lines 284-286). -/
def ccProviderRewardsRaw (s : TestScenarioParameters) : ℚ :=
  fdivQ (ccTotalEarnedRaw s * ((100 - s.creation_params.staking_rate : ℤ) : ℚ) *
    (s.precision : ℚ)) (100 * (s.precision : ℚ))

/-- `staker_rewards = (total_rewards_earned * staking_rate * precision) //
(100 * precision)` (lines 287-289). -/
def ccStakerRewardsRaw (s : TestScenarioParameters) : ℚ :=
  fdivQ (ccTotalEarnedRaw s * (s.creation_params.staking_rate : ℚ) * (s.precision : ℚ))
    (100 * (s.precision : ℚ))

/-- `utils.round_to_precision(value, precision=10**7, decimal_places=4)`:
`round(value / precision, 4)`.  The source's final `int(...)` conversion
when the result is a whole number does not change the numeric value. -/
def round_to_precision (value : ℚ) (precision : ℚ := 10^7) : ℚ :=
  (pyRoundInt (value / precision * 10^4) : ℚ) / 10^4

/-- The report dict returned by `calculate_vesting` (lines 309-316).  Every
field is passed through `round_to_precision` WITHOUT a precision argument,
i.e. at the default scale `10^7`. -/
structure CCReport where
  total_earned : ℚ
  total_withdrawn : ℚ
  to_claim : ℚ
  in_vesting : ℚ
  provider_rewards : ℚ
  staker_rewards : ℚ
  deriving DecidableEq, Repr

/-- `calculate_vesting`: the returned report. -/
def calculate_vesting (s : TestScenarioParameters) : CCReport :=
  { total_earned := round_to_precision (ccTotalEarnedRaw s)
    total_withdrawn := round_to_precision (ccTotalWithdrawnRaw s)
    to_claim := round_to_precision (ccToClaimRaw s)
    in_vesting := round_to_precision (ccInVestingRaw s)
    provider_rewards := round_to_precision (ccProviderRewardsRaw s)
    staker_rewards := round_to_precision (ccStakerRewardsRaw s) }

/-- `last_epoch_to_count_rewards` of `calculate_deal_vesting` (lines
334-338): `min(deal_end_epoch, current_epoch)`, clamped by `cc_fail_epoch`
when positive. -/
def dealLastCountable (s : TestScenarioParameters) : ℤ :=
  if 0 < s.failing_params.cc_fail_epoch then
    min (min s.deal_params.deal_end_epoch s.current_epoch) s.failing_params.cc_fail_epoch
  else min s.deal_params.deal_end_epoch s.current_epoch

/-- `total_epochs_rewarded = last_epoch_to_count_rewards - deal_start_epoch`
(lines 340-342). -/
def dealEpochsRewarded (s : TestScenarioParameters) : ℤ :=
  dealLastCountable s - s.deal_params.deal_start_epoch

/-- `reward_per_epoch_usd = int(price_per_cu_in_offer_usd * precision)`
(line 327). -/
def dealRewardPerEpochUsd (s : TestScenarioParameters) : ℤ :=
  pyInt (s.deal_params.price_per_cu_in_offer_usd * (s.precision : ℚ))

/-- `flt_price = int(flt_usd_price * precision)` (line 328). -/
def dealFltPrice (s : TestScenarioParameters) : ℤ :=
  pyInt (s.network_params.flt_usd_price * (s.precision : ℚ))

/-- `total_rewards_earned_usd = total_epochs_rewarded *
price_per_cu_in_offer_usd * amount_of_cu_to_move_to_deal * precision`
(lines 344-349). -/
def dealTotalEarnedUsdRaw (s : TestScenarioParameters) : ℚ :=
  (dealEpochsRewarded s : ℚ) * s.deal_params.price_per_cu_in_offer_usd *
    (s.deal_params.amount_of_cu_to_move_to_deal : ℚ) * (s.precision : ℚ)

/-- `total_rewards_earned_flt = total_rewards_earned_usd // flt_usd_price`
(line 350): floor division by the RAW float price, not by `flt_price`, and
NOT scaled by the staking rate. -/
def dealTotalEarnedFltRaw (s : TestScenarioParameters) : ℚ :=
  fdivQ (dealTotalEarnedUsdRaw s) s.network_params.flt_usd_price

/-- `period_rewards_flt = period_rewards_usd * (staking_rate * precision /
100) // flt_price` (lines 386-389), with `period_rewards_usd =
reward_per_epoch_usd * amount_of_cu_to_move_to_deal`; identical for every
epoch of the deal loop. -/
def dealPerEpochFlt (s : TestScenarioParameters) : ℚ :=
  fdivQ (((dealRewardPerEpochUsd s * s.deal_params.amount_of_cu_to_move_to_deal : ℤ) : ℚ) *
      (((s.creation_params.staking_rate * s.precision : ℤ) : ℚ) / 100))
    ((dealFltPrice s : ℤ) : ℚ)

/-- The per-origin-epoch unlock fraction of the deal loop (lines 391-399):
`min(max(0, ref - work_epoch) * precision // (vesting_period_count *
vesting_period_duration), precision)`. -/
def dealUnlockedFraction (s : TestScenarioParameters) (ref workEpoch : ℤ) : ℤ :=
  min ((max 0 (ref - workEpoch) * s.precision).fdiv
      (s.vesting_params.vesting_period_count * s.vesting_params.vesting_period_duration))
    s.precision

/-- `period_unlocked_rewards` of one deal epoch (line 401). -/
def dealPeriodUnlocked (s : TestScenarioParameters) (workEpoch : ℤ) : ℚ :=
  fdivQ (dealPerEpochFlt s * ((dealUnlockedFraction s s.current_epoch workEpoch : ℤ) : ℚ))
    (s.precision : ℚ)

/-- `period_withdrawn` of one deal epoch (lines 403-416): `0` unless
`withdrawal_epoch > 0 and withdrawal_epoch > work_epoch`. -/
def dealPeriodWithdrawn (s : TestScenarioParameters) (workEpoch : ℤ) : ℚ :=
  if 0 < s.withdrawal_epoch ∧ workEpoch < s.withdrawal_epoch then
    fdivQ (((dealUnlockedFraction s s.withdrawal_epoch workEpoch : ℤ) : ℚ) * dealPerEpochFlt s)
      (s.precision : ℚ)
  else 0

/-- Accumulator of the deal loop: `total_withdrawn`, `unlocked_rewards`. -/
structure DealAgg where
  withdrawn : ℚ
  unlocked : ℚ
  deriving DecidableEq, Repr

/-- One iteration of `for work_epoch in range(deal_start_epoch,
last_epoch_to_count_rewards)` (lines 385-419). -/
def dealStep (s : TestScenarioParameters) (agg : DealAgg) (workEpoch : ℤ) : DealAgg :=
  { withdrawn := agg.withdrawn + dealPeriodWithdrawn s workEpoch
    unlocked := agg.unlocked + (dealPeriodUnlocked s workEpoch - dealPeriodWithdrawn s workEpoch) }

/-- The epochs iterated by the deal loop. -/
def dealEpochList (s : TestScenarioParameters) : List ℤ :=
  intRange s.deal_params.deal_start_epoch (dealLastCountable s)

/-- The full deal loop of `calculate_deal_vesting`. -/
def dealAgg (s : TestScenarioParameters) : DealAgg :=
  (dealEpochList s).foldl (dealStep s) ⟨0, 0⟩

/-- `total_withdrawn` of `calculate_deal_vesting` (raw fixed point). -/
def dealTotalWithdrawnRaw (s : TestScenarioParameters) : ℚ := (dealAgg s).withdrawn

/-- `available_for_withdrawal = unlocked_rewards` of `calculate_deal_vesting`
(raw fixed point). -/
def dealToClaimRaw (s : TestScenarioParameters) : ℚ := (dealAgg s).unlocked

/-- `rewards_in_vesting = max(0, total_rewards_earned_flt - unlocked_rewards
- total_withdrawn)` (lines 432-434). -/
def dealInVestingRaw (s : TestScenarioParameters) : ℚ :=
  max 0 (dealTotalEarnedFltRaw s - dealToClaimRaw s - dealTotalWithdrawnRaw s)

/-- Runtime error conditions relevant to the APR computation: a raw Python
`ZeroDivisionError`, versus the explicit "no eligible epochs" condition the
specification requires. -/
inductive PyError where
  | zeroDivisionError
  | noEligibleEpochs
  deriving DecidableEq, Repr

/-- `total_epochs_rewarded = last_epoch_to_count_rewards - cc_start_epoch`
of `calculate_average_apr` (lines 56-63). -/
def aprTotalEpochsRewarded (s : TestScenarioParameters) : ℤ :=
  ccLastCountable s - s.creation_params.cc_start_epoch

/-- `collateral_flt = (cu_amount * usd_collateral_per_unit * precision) //
flt_usd_price` (`calculate_average_apr`, lines 65-67). -/
def aprCollateralFlt (s : TestScenarioParameters) : ℚ :=
  fdivQ ((s.creation_params.cu_amount : ℚ) * s.network_params.usd_collateral_per_unit *
    (s.precision : ℚ)) s.network_params.flt_usd_price

/-- `calculate_average_apr(total_reward, params)` (lines 48-95), with each
division that Python would execute modelled in evaluation order; a zero
divisor raises `ZeroDivisionError`.  There is NO guard producing a
"no eligible epochs" condition in the source: when `total_epochs_rewarded`
is zero the function fails with a bare division by zero (line 72).
Returns `(avg_apr_total, staker_avg_apr)` after `round_to_precision`. -/
def calculate_average_apr (total_reward : ℚ) (s : TestScenarioParameters) :
    Except PyError (ℚ × ℚ) :=
  if s.network_params.flt_usd_price = 0 then .error .zeroDivisionError
  else if s.network_params.epoch_duration = 0 then .error .zeroDivisionError
  else if aprTotalEpochsRewarded s = 0 then .error .zeroDivisionError
  else
    let collateral_flt := aprCollateralFlt s
    let epochs_in_year := (365 * 24 * 60 * 60 : ℤ).fdiv s.network_params.epoch_duration
    let avg_reward := fdivQ (total_reward * (s.precision : ℚ)) (aprTotalEpochsRewarded s : ℚ)
    let avg_reward_yearly := avg_reward * (epochs_in_year : ℚ)
    if collateral_flt = 0 then .error .zeroDivisionError
    else
      let avg_apr := fdivQ (avg_reward_yearly * (s.precision : ℚ)) collateral_flt
      let staker_avg_apr := fdivQ (avg_apr * (s.creation_params.staking_rate : ℚ)) 100
      .ok (round_to_precision avg_apr, round_to_precision staker_avg_apr)

/-- Default-like network parameters used by the concrete scenarios below
(`epoch_duration=600, collateral=1, revenue=1000, price=1, pools=0`). -/
def baseNetwork (mfr : ℤ) : NetworkParameters :=
  { epoch_duration := 600, usd_collateral_per_unit := 1,
    usd_target_revenue_per_epoch := 1000, flt_usd_price := 1,
    min_reward_pool := 0, max_reward_pool := 0, max_fail_ratio := mfr }

/-- Validated scenario on which CC conservation fails: `cc_fail_epoch = 18`
with empty explicit slashing auto-fills 6 slashed epochs `[13..18]` for each
of the 2 CUs, overlapping the deal window `[13, 19)` of the single deal CU;
the slash-during-deal check ran before the fill, so validation passes. -/
def cex1 : TestScenarioParameters :=
  { network_params := baseNetwork 6
    vesting_params := { vesting_period_count := 2, vesting_period_duration := 6 }
    creation_params := { cu_amount := 2, cc_start_epoch := 1, cc_end_epoch := 30,
                         staking_rate := 50 }
    failing_params := { cc_fail_epoch := 18, slashed_epochs := [] }
    deal_params := { deal_start_epoch := 13, deal_end_epoch := 19,
                     amount_of_cu_to_move_to_deal := 1, price_per_cu_in_offer_usd := 1 }
    precision := 10, current_epoch := 23, withdrawal_epoch := 0 }

/-- The snapshot construction produces from `cex1`: auto-filled slashing,
derived reward pools. -/
def cex1N : TestScenarioParameters :=
  { cex1 with
    network_params := { baseNetwork 6 with min_reward_pool := 2000, max_reward_pool := 2000 }
    failing_params :=
      { cc_fail_epoch := 18,
        slashed_epochs := [(1, [13, 14, 15, 16, 17, 18]), (2, [13, 14, 15, 16, 17, 18])] } }

/-- `cex1` advanced one epoch with a withdrawal at epoch 23: the window
starting at 12 then has a negative period reward that is more unlocked at
the current epoch than at the withdrawal epoch. -/
def cex2 : TestScenarioParameters :=
  { cex1 with current_epoch := 24, withdrawal_epoch := 23 }

/-- The normalized snapshot of `cex2`. -/
def cex2N : TestScenarioParameters :=
  { cex1N with current_epoch := 24, withdrawal_epoch := 23 }

/-- Validated scenario with explicitly supplied slashing whose total (1)
EXCEEDS `floor(max_fail_ratio * cu_amount) = 0` while `cc_fail_epoch` is
set: construction nevertheless succeeds, because with `cc_fail_epoch != 0`
the source only rejects totals BELOW the budget. -/
def cex4 : TestScenarioParameters :=
  { network_params := baseNetwork 0
    vesting_params := { vesting_period_count := 2, vesting_period_duration := 6 }
    creation_params := { cu_amount := 32, cc_start_epoch := 1, cc_end_epoch := 30,
                         staking_rate := 50 }
    failing_params := { cc_fail_epoch := 1, slashed_epochs := [(1, [1])] }
    deal_params := { deal_start_epoch := 0, deal_end_epoch := 0,
                     amount_of_cu_to_move_to_deal := 0, price_per_cu_in_offer_usd := 1 }
    precision := 10, current_epoch := 1, withdrawal_epoch := 0 }

/-- The normalized snapshot of `cex4` (no auto-fill: slashing was supplied). -/
def cex4N : TestScenarioParameters :=
  { cex4 with
    network_params := { baseNetwork 0 with min_reward_pool := 32000, max_reward_pool := 32000 } }

/-- Validated scenario with zero rewarded epochs: `current_epoch = 1 =
cc_start_epoch`, so `last_epoch_to_count_rewards - cc_start_epoch = 0` and
`calculate_average_apr` divides by zero. -/
def sC2 : TestScenarioParameters :=
  { network_params := baseNetwork 4
    vesting_params := { vesting_period_count := 2, vesting_period_duration := 6 }
    creation_params := { cu_amount := 32, cc_start_epoch := 1, cc_end_epoch := 30,
                         staking_rate := 50 }
    failing_params := { cc_fail_epoch := 0, slashed_epochs := [] }
    deal_params := { deal_start_epoch := 0, deal_end_epoch := 0,
                     amount_of_cu_to_move_to_deal := 0, price_per_cu_in_offer_usd := 1 }
    precision := 10, current_epoch := 1, withdrawal_epoch := 0 }

/-- The normalized snapshot of `sC2`. -/
def sC2N : TestScenarioParameters :=
  { sC2 with
    network_params := { baseNetwork 4 with min_reward_pool := 32000, max_reward_pool := 32000 } }

/-- Validated one-epoch deal scenario (staking rate 50): the deal loop's
per-epoch token reward is staking-scaled (5) while the reported
`total_earned_flt` is not (10). -/
def w9 : TestScenarioParameters :=
  { sC2 with
    deal_params := { deal_start_epoch := 1, deal_end_epoch := 2,
                     amount_of_cu_to_move_to_deal := 1, price_per_cu_in_offer_usd := 1 }
    current_epoch := 2 }

/-- The normalized snapshot of `w9`. -/
def w9N : TestScenarioParameters :=
  { w9 with
    network_params := { baseNetwork 4 with min_reward_pool := 32000, max_reward_pool := 32000 } }

/-- Simple fully-validated scenario (no deal, no failure, withdrawal at 3,
current epoch 8) used to witness the amended conservation/cap theorems. -/
def w1 : TestScenarioParameters :=
  { sC2 with current_epoch := 8, withdrawal_epoch := 3 }

/-- The normalized snapshot of `w1`. -/
def w1N : TestScenarioParameters :=
  { w1 with
    network_params := { baseNetwork 4 with min_reward_pool := 32000, max_reward_pool := 32000 } }

/-- Scenario witnessing the auto-fill characterization: `cc_fail_epoch = 5`,
`max_fail_ratio = 2`, `cu_amount = 3`, no supplied slashing. -/
def s3 : TestScenarioParameters :=
  { sC2 with
    network_params := baseNetwork 2
    creation_params := { cu_amount := 3, cc_start_epoch := 1, cc_end_epoch := 30,
                         staking_rate := 50 }
    failing_params := { cc_fail_epoch := 5, slashed_epochs := [] } }

/-- Scenario witnessing the amended slash-budget rule: `cc_fail_epoch = 3`,
`max_fail_ratio = 1`, `cu_amount = 2`, no supplied slashing. -/
def s4 : TestScenarioParameters :=
  { sC2 with
    network_params := baseNetwork 1
    creation_params := { cu_amount := 2, cc_start_epoch := 1, cc_end_epoch := 30,
                         staking_rate := 50 }
    failing_params := { cc_fail_epoch := 3, slashed_epochs := [] } }

theorem mem_intRange {a b e : ℤ} : e ∈ intRange a b ↔ a ≤ e ∧ e < b := by
  unfold intRange
  constructor
  · intro hmem
    obtain ⟨i, hir, hie⟩ := List.mem_map.1 hmem
    have hlt : i < (b - a).toNat := List.mem_range.1 hir
    omega
  · intro h
    exact List.mem_map.2 ⟨(e - a).toNat, List.mem_range.2 (by omega), by omega⟩

theorem intRange_length (a b : ℤ) : (intRange a b).length = (b - a).toNat := by
  simp [intRange]

theorem totalSlashed_cons (k : ℤ) (v : List ℤ) (es : List (ℤ × List ℤ)) :
    totalSlashed ((k, v) :: es) = (v.length : ℤ) + totalSlashed es := by
  simp [totalSlashed]

theorem dictGet_mem {d : List (ℤ × List ℤ)} {c e : ℤ} (h : e ∈ dictGet d c) :
    ∃ v, (c, v) ∈ d ∧ e ∈ v := by
  induction d with
  | nil => simp [dictGet] at h
  | cons p es ih =>
      obtain ⟨k, v⟩ := p
      by_cases hk : k = c
      · subst hk
        simp only [dictGet, if_pos rfl] at h
        exact ⟨v, List.mem_cons_self _ _, h⟩
      · simp only [dictGet, if_neg hk] at h
        obtain ⟨v2, hv2, he⟩ := ih h
        exact ⟨v2, List.mem_cons_of_mem _ hv2, he⟩

theorem fdivQ_nonneg {a b : ℚ} (ha : 0 ≤ a) (hb : 0 ≤ b) : 0 ≤ fdivQ a b := by
  unfold fdivQ
  have : (0 : ℤ) ≤ ⌊a / b⌋ := Int.le_floor.2 (by simpa using div_nonneg ha hb)
  exact_mod_cast this

theorem fdivQ_mono_left {a c b : ℚ} (h : a ≤ c) (hb : 0 ≤ b) : fdivQ a b ≤ fdivQ c b := by
  unfold fdivQ
  exact_mod_cast Int.floor_le_floor (div_le_div_of_nonneg_right h hb)

theorem fdivQ_le_of_le_mul {a b c : ℚ} (hb : 0 < b) (h : a ≤ c * b) : fdivQ a b ≤ c := by
  unfold fdivQ
  calc ((⌊a / b⌋ : ℤ) : ℚ) ≤ a / b := Int.floor_le _
    _ ≤ c := by rw [div_le_iff₀ hb]; exact h

theorem periodsSinceEnd_mono {r1 r2 pe dur : ℤ} (hdur : 0 < dur) (h : r1 ≤ r2) :
    periodsSinceEnd r1 pe dur ≤ periodsSinceEnd r2 pe dur := by
  unfold periodsSinceEnd
  have hd : (0 : ℤ) ≤ dur := le_of_lt hdur
  rw [Int.fdiv_eq_ediv _ hd, Int.fdiv_eq_ediv _ hd]
  have := Int.ediv_le_ediv hdur (show r1 - pe ≤ r2 - pe by omega)
  omega

theorem periodsSinceEnd_nonneg (r pe dur : ℤ) : 0 ≤ periodsSinceEnd r pe dur :=
  le_max_left 0 _

theorem unlockedFraction_nonneg {r pe dur cnt prec : ℤ} (hcnt : 0 < cnt) (hprec : 0 ≤ prec) :
    0 ≤ unlockedFraction r pe dur cnt prec := by
  unfold unlockedFraction
  have h1 : 0 ≤ periodsSinceEnd r pe dur * prec :=
    mul_nonneg (periodsSinceEnd_nonneg r pe dur) hprec
  have h2 : (0 : ℤ) ≤ (periodsSinceEnd r pe dur * prec).fdiv cnt := by
    rw [Int.fdiv_eq_ediv _ (le_of_lt hcnt)]
    exact Int.ediv_nonneg h1 (le_of_lt hcnt)
  exact le_min h2 hprec

theorem unlockedFraction_le_prec (r pe dur cnt prec : ℤ) :
    unlockedFraction r pe dur cnt prec ≤ prec :=
  min_le_right _ _

theorem unlockedFraction_mono {r1 r2 pe dur cnt prec : ℤ} (hdur : 0 < dur) (hcnt : 0 < cnt)
    (hprec : 0 ≤ prec) (h : r1 ≤ r2) :
    unlockedFraction r1 pe dur cnt prec ≤ unlockedFraction r2 pe dur cnt prec := by
  unfold unlockedFraction
  have h1 : periodsSinceEnd r1 pe dur * prec ≤ periodsSinceEnd r2 pe dur * prec :=
    mul_le_mul_of_nonneg_right (periodsSinceEnd_mono hdur h) hprec
  have h2 : (periodsSinceEnd r1 pe dur * prec).fdiv cnt ≤
      (periodsSinceEnd r2 pe dur * prec).fdiv cnt := by
    rw [Int.fdiv_eq_ediv _ (le_of_lt hcnt), Int.fdiv_eq_ediv _ (le_of_lt hcnt)]
    exact Int.ediv_le_ediv hcnt h1
  exact min_le_min h2 le_rfl

theorem unlockedFraction_eq_prec {r pe dur cnt prec : ℤ} (hdur : 0 < dur) (hcnt : 0 < cnt)
    (hprec : 0 ≤ prec) (h : cnt * dur ≤ r - pe) :
    unlockedFraction r pe dur cnt prec = prec := by
  unfold unlockedFraction periodsSinceEnd
  have hd : (0 : ℤ) ≤ dur := le_of_lt hdur
  have hfd : cnt ≤ (r - pe).fdiv dur := by
    rw [Int.fdiv_eq_ediv _ hd]
    calc cnt = cnt * dur / dur := (Int.mul_ediv_cancel cnt (by omega)).symm
      _ ≤ (r - pe) / dur := Int.ediv_le_ediv hdur h
  have hper : cnt ≤ max 0 ((r - pe).fdiv dur + 1) := by omega
  have hfrac : prec ≤ (max 0 ((r - pe).fdiv dur + 1) * prec).fdiv cnt := by
    rw [Int.fdiv_eq_ediv _ (le_of_lt hcnt)]
    calc prec = cnt * prec / cnt := (Int.mul_ediv_cancel_left prec (by omega)).symm
      _ ≤ (max 0 ((r - pe).fdiv dur + 1) * prec) / cnt :=
        Int.ediv_le_ediv hcnt (mul_le_mul_of_nonneg_right hper hprec)
  exact min_eq_right hfrac

theorem fillCuList_length (F base rem c : ℤ) (hbase : 0 ≤ base) :
    ((fillCuList F base rem c).length : ℤ) = base + (if c ≤ rem then 1 else 0) := by
  unfold fillCuList
  by_cases h : c ≤ rem
  · simp only [if_pos h, List.length_cons, intRange_length]
    push_cast
    omega
  · simp only [if_neg h, intRange_length]
    omega

theorem fillFrom_total (F base rem : ℤ) (hbase : 0 ≤ base) :
    ∀ (k : ℕ) (c0 : ℤ), totalSlashed (fillFrom F base rem c0 k) =
      (k : ℤ) * base + min (max (rem - c0 + 1) 0) (k : ℤ) := by
  intro k
  induction k with
  | zero => intro c0; simp [fillFrom, totalSlashed]
  | succ n ih =>
      intro c0
      have hrec := ih (c0 + 1)
      rw [show fillFrom F base rem c0 (n+1) =
            (c0, fillCuList F base rem c0) :: fillFrom F base rem (c0 + 1) n from rfl,
          totalSlashed_cons, hrec, fillCuList_length F base rem c0 hbase]
      push_cast
      rw [show ((n : ℤ) + 1) * base = (n : ℤ) * base + base from by ring]
      by_cases h : c0 ≤ rem
      · simp only [if_pos h]; omega
      · simp only [if_neg h]; omega

theorem fillFrom_get (F base rem : ℤ) :
    ∀ (k : ℕ) (c0 c : ℤ), c0 ≤ c → c < c0 + (k : ℤ) →
      dictGet (fillFrom F base rem c0 k) c = fillCuList F base rem c := by
  intro k
  induction k with
  | zero => intro c0 c h1 h2; omega
  | succ n ih =>
      intro c0 c h1 h2
      rw [show fillFrom F base rem c0 (n+1) =
            (c0, fillCuList F base rem c0) :: fillFrom F base rem (c0 + 1) n from rfl]
      by_cases hc : c0 = c
      · subst hc; simp [dictGet]
      · show (if c0 = c then fillCuList F base rem c0
              else dictGet (fillFrom F base rem (c0 + 1) n) c) = fillCuList F base rem c
        rw [if_neg hc]
        exact ih (c0 + 1) c (by omega) (by omega)

theorem fillSlashed_total {M n : ℤ} (F : ℤ) (hn : 0 < n) (hM : 0 ≤ M) :
    totalSlashed (fillSlashedEpochsForFailure F M n) = M := by
  unfold fillSlashedEpochsForFailure
  have hn0 : (0 : ℤ) ≤ n := le_of_lt hn
  have hdiv : M.fdiv n = M / n := Int.fdiv_eq_ediv M hn0
  have hmod : M.fmod n = M % n := Int.fmod_eq_emod M hn0
  have hbase : 0 ≤ M.fdiv n := by rw [hdiv]; exact Int.ediv_nonneg hM hn0
  rw [fillFrom_total F _ _ hbase n.toNat 1]
  have hmod1 : 0 ≤ M % n := Int.emod_nonneg M (by omega)
  have hmod2 : M % n < n := Int.emod_lt_of_pos M hn
  have hid : n * (M / n) + M % n = M := Int.ediv_add_emod M n
  have hcast : ((n.toNat : ℤ)) = n := Int.toNat_of_nonneg hn0
  rw [hcast, hdiv, hmod]
  omega

theorem fillSlashed_get {M n c : ℤ} (F : ℤ) (h1 : 1 ≤ c) (h2 : c ≤ n) :
    dictGet (fillSlashedEpochsForFailure F M n) c =
      fillCuList F (M.fdiv n) (M.fmod n) c := by
  unfold fillSlashedEpochsForFailure
  exact fillFrom_get F _ _ n.toNat 1 c h1 (by omega)

theorem Ico_insert_bot {a b : ℤ} (h : a < b) :
    Finset.Ico a b = insert a (Finset.Ico (a + 1) b) := by
  ext x
  simp only [Finset.mem_Ico, Finset.mem_insert]
  omega

theorem sum_Ico_bot {a b : ℤ} (h : a < b) (f : ℤ → ℚ) :
    ∑ e ∈ Finset.Ico a b, f e = f a + ∑ e ∈ Finset.Ico (a + 1) b, f e := by
  rw [Ico_insert_bot h, Finset.sum_insert (by simp [Finset.mem_Ico])]

theorem ccRangeRewards_eq_sum (s : TestScenarioParameters) (precision : ℤ) :
    ∀ (k : ℕ) (a : ℤ), ccRangeRewards s precision a k =
      ∑ e ∈ Finset.Ico a (a + (k : ℤ)), ccEpochReward s e precision := by
  intro k
  induction k with
  | zero => intro a; simp [ccRangeRewards]
  | succ n ih =>
      intro a
      rw [show ccRangeRewards s precision a (n+1) =
            ccEpochReward s a precision + ccRangeRewards s precision (a + 1) n from rfl,
          ih (a + 1),
          show a + 1 + (n : ℤ) = a + ((n : ℤ) + 1) from by ring,
          show a + (((n + 1 : ℕ)) : ℤ) = a + ((n : ℤ) + 1) from by push_cast; ring,
          sum_Ico_bot (show a < a + ((n : ℤ) + 1) from by omega)]

theorem periodRewardsForCC_eq_sum (s : TestScenarioParameters) (a b precision : ℤ) :
    periodRewardsForCC s a b precision =
      ∑ e ∈ Finset.Ico a b, ccEpochReward s e precision := by
  unfold periodRewardsForCC
  by_cases hab : a ≤ b
  · rw [ccRangeRewards_eq_sum s precision (b - a).toNat a,
      show a + ((b - a).toNat : ℤ) = b by omega]
  · rw [show (b - a).toNat = 0 by omega]
    rw [show ccRangeRewards s precision a 0 = 0 from rfl]
    rw [Finset.Ico_eq_empty (by omega), Finset.sum_empty]

theorem vn_eq {s t : TestScenarioParameters} (h : validateAndNormalize s = some t) :
    fieldOk s ∧
    s.deal_params.amount_of_cu_to_move_to_deal ≤ s.creation_params.cu_amount ∧
    dealSlashOk s ∧
    validateSlashedTotalsOk s.failing_params.cc_fail_epoch
      (totalSlashed (fillScenario s).failing_params.slashed_epochs) (maxFailAmount s) ∧
    failWindowOk s ∧ withdrawalOk s ∧
    t = updatePools (fillScenario s) := by
  unfold validateAndNormalize at h
  split_ifs at h with hc
  exact ⟨hc.1, hc.2.1, hc.2.2.1, hc.2.2.2.1, hc.2.2.2.2.1, hc.2.2.2.2.2,
    (Option.some.inj h).symm⟩

theorem vn_fields {s t : TestScenarioParameters} (h : validateAndNormalize s = some t) :
    t.vesting_params = s.vesting_params ∧ t.creation_params = s.creation_params ∧
    t.deal_params = s.deal_params ∧ t.precision = s.precision ∧
    t.current_epoch = s.current_epoch ∧ t.withdrawal_epoch = s.withdrawal_epoch ∧
    t.network_params.usd_target_revenue_per_epoch =
      s.network_params.usd_target_revenue_per_epoch ∧
    t.network_params.flt_usd_price = s.network_params.flt_usd_price ∧
    t.network_params.epoch_duration = s.network_params.epoch_duration ∧
    t.network_params.usd_collateral_per_unit = s.network_params.usd_collateral_per_unit := by
  obtain ⟨-, -, -, -, -, -, rfl⟩ := vn_eq h
  exact ⟨rfl, rfl, rfl, rfl, rfl, rfl, rfl, rfl, rfl, rfl⟩

/-- The facts about the normalized snapshot the engine theorems use,
all consequences of a successful construction. -/
theorem vn_engineFacts {s t : TestScenarioParameters} (h : validateAndNormalize s = some t) :
    0 < t.vesting_params.vesting_period_duration ∧
    0 < t.vesting_params.vesting_period_count ∧
    0 ≤ t.precision ∧
    0 < t.network_params.usd_target_revenue_per_epoch ∧
    0 < t.network_params.flt_usd_price ∧
    0 ≤ t.deal_params.amount_of_cu_to_move_to_deal ∧
    t.deal_params.amount_of_cu_to_move_to_deal ≤ t.creation_params.cu_amount ∧
    0 ≤ t.deal_params.deal_start_epoch ∧
    0 ≤ t.creation_params.cu_amount ∧
    (t.withdrawal_epoch ≠ 0 → t.withdrawal_epoch ≤ t.current_epoch) := by
  obtain ⟨hf, hcu, -, -, -, hw, ht⟩ := vn_eq h
  obtain ⟨e1, e2, e3, e4, e5, e6, e7, e8, -, -⟩ := vn_fields h
  rw [e1, e2, e3, e4, e5, e6, e7, e8]
  obtain ⟨-, -, hrev, hpr, -, -, -, hcnt, hdur, hcuamt, -, -, -, -, -, -, -, hds, -, -, -,
    hdamt, -, hprec, -, -⟩ := hf
  exact ⟨by omega, by omega, hprec, hrev, hpr, hdamt, hcu, hds, by omega, hw⟩

theorem slashedCus_le_activeCus {s : TestScenarioParameters}
    (hinv : dealSlashOk s)
    (hcu : 0 ≤ s.creation_params.cu_amount)
    (hdcu : s.deal_params.amount_of_cu_to_move_to_deal ≤ s.creation_params.cu_amount)
    (hds : 0 ≤ s.deal_params.deal_start_epoch) (e : ℤ) :
    slashedCus s e ≤ activeCus s e := by
  unfold slashedCus activeCus
  by_cases hact : dealActiveAt s e
  · rw [if_pos hact]
    obtain ⟨⟨hds0, hd0⟩, hse, hed⟩ := hact
    have hde0 : s.deal_params.deal_end_epoch ≠ 0 := by omega
    have hsub : (Finset.Icc (1 : ℤ) s.creation_params.cu_amount).filter
        (fun cu => e ∈ dictGet s.failing_params.slashed_epochs cu) ⊆
        Finset.Icc (s.deal_params.amount_of_cu_to_move_to_deal + 1)
          s.creation_params.cu_amount := by
      intro c hc
      rw [Finset.mem_filter, Finset.mem_Icc] at hc
      rw [Finset.mem_Icc]
      obtain ⟨⟨hc1, hc2⟩, hmem⟩ := hc
      refine ⟨?hlow, hc2⟩
      by_contra hlow
      have hcle : c ≤ s.deal_params.amount_of_cu_to_move_to_deal := by omega
      obtain ⟨v, hv, he⟩ := dictGet_mem hmem
      exact hinv (c, v) hv hcle e he ⟨hse, le_of_lt hed, hds0, hde0, hd0⟩
    have hcard := Finset.card_le_card hsub
    have hcard2 : ((Finset.Icc (s.deal_params.amount_of_cu_to_move_to_deal + 1)
        s.creation_params.cu_amount).card : ℤ) =
        (s.creation_params.cu_amount + 1 -
          (s.deal_params.amount_of_cu_to_move_to_deal + 1)).toNat := by
      rw [Int.card_Icc]
    omega
  · rw [if_neg hact]
    have hsub : (Finset.Icc (1 : ℤ) s.creation_params.cu_amount).filter
        (fun cu => e ∈ dictGet s.failing_params.slashed_epochs cu) ⊆
        Finset.Icc (1 : ℤ) s.creation_params.cu_amount := Finset.filter_subset _ _
    have hcard := Finset.card_le_card hsub
    have hcard2 : ((Finset.Icc (1 : ℤ) s.creation_params.cu_amount).card : ℤ) =
        (s.creation_params.cu_amount + 1 - 1).toNat := by rw [Int.card_Icc]
    omega

theorem fltRewardPerEpoch_nonneg {s : TestScenarioParameters} {prec : ℤ}
    (hrev : 0 ≤ s.network_params.usd_target_revenue_per_epoch)
    (hpr : 0 ≤ s.network_params.flt_usd_price) (hprec : 0 ≤ prec) :
    0 ≤ fltRewardPerEpoch s prec :=
  fdivQ_nonneg (mul_nonneg hrev (by exact_mod_cast hprec)) hpr

theorem ccEpochReward_nonneg {s : TestScenarioParameters} {e prec : ℤ}
    (hsla : slashedCus s e ≤ activeCus s e) (hrate : 0 ≤ fltRewardPerEpoch s prec) :
    0 ≤ ccEpochReward s e prec := by
  unfold ccEpochReward
  have : (0 : ℚ) ≤ ((activeCus s e - slashedCus s e : ℤ) : ℚ) := by
    exact_mod_cast sub_nonneg.2 hsla
  exact mul_nonneg this hrate

theorem ccRangeRewards_nonneg {s : TestScenarioParameters} {prec : ℤ}
    (h : ∀ e, 0 ≤ ccEpochReward s e prec) :
    ∀ (k : ℕ) (a : ℤ), 0 ≤ ccRangeRewards s prec a k := by
  intro k
  induction k with
  | zero => intro a; exact le_refl 0
  | succ n ih =>
      intro a
      have h1 := h a
      have h2 := ih (a + 1)
      show 0 ≤ ccEpochReward s a prec + ccRangeRewards s prec (a + 1) n
      linarith

theorem ccPeriodReward_nonneg {s : TestScenarioParameters}
    (h : ∀ e, 0 ≤ ccEpochReward s e s.precision) (ps : ℤ) :
    0 ≤ ccPeriodReward s ps :=
  ccRangeRewards_nonneg h _ _

theorem ccPeriodUnlocked_le_reward {s : TestScenarioParameters} {ps : ℤ}
    (h0 : 0 ≤ ccPeriodReward s ps) (hprec : 0 < s.precision) :
    ccPeriodUnlocked s ps ≤ ccPeriodReward s ps := by
  unfold ccPeriodUnlocked
  apply fdivQ_le_of_le_mul (by exact_mod_cast hprec)
  have hfle : ((unlockedFraction s.current_epoch
      (ps + s.vesting_params.vesting_period_duration)
      s.vesting_params.vesting_period_duration s.vesting_params.vesting_period_count
      s.precision : ℤ) : ℚ) ≤ ((s.precision : ℤ) : ℚ) :=
    Int.cast_le.2 (unlockedFraction_le_prec _ _ _ _ _)
  calc ccPeriodReward s ps * _ ≤ ccPeriodReward s ps * ((s.precision : ℤ) : ℚ) :=
        mul_le_mul_of_nonneg_left hfle h0
    _ = ccPeriodReward s ps * (s.precision : ℚ) := by norm_cast

theorem ccPeriodUnlocked_nonneg {s : TestScenarioParameters} {ps : ℤ}
    (h0 : 0 ≤ ccPeriodReward s ps) (hcnt : 0 < s.vesting_params.vesting_period_count)
    (hprec : 0 ≤ s.precision) :
    0 ≤ ccPeriodUnlocked s ps := by
  unfold ccPeriodUnlocked
  apply fdivQ_nonneg _ (by exact_mod_cast hprec)
  have : (0 : ℚ) ≤ ((unlockedFraction s.current_epoch
      (ps + s.vesting_params.vesting_period_duration)
      s.vesting_params.vesting_period_duration s.vesting_params.vesting_period_count
      s.precision : ℤ) : ℚ) :=
    by exact_mod_cast unlockedFraction_nonneg hcnt hprec
  exact mul_nonneg h0 this

theorem ccPeriodWithdrawn_le_unlocked {s : TestScenarioParameters} {ps : ℤ}
    (h0 : 0 ≤ ccPeriodReward s ps)
    (hdur : 0 < s.vesting_params.vesting_period_duration)
    (hcnt : 0 < s.vesting_params.vesting_period_count)
    (hprec : 0 ≤ s.precision)
    (hw : s.withdrawal_epoch ≠ 0 → s.withdrawal_epoch ≤ s.current_epoch) :
    ccPeriodWithdrawn s ps ≤ ccPeriodUnlocked s ps := by
  unfold ccPeriodWithdrawn
  split_ifs with hcond
  · obtain ⟨hw0, hpsw⟩ := hcond
    have hwc : s.withdrawal_epoch ≤ s.current_epoch := hw (by omega)
    have hf : unlockedFraction s.withdrawal_epoch
        (ps + s.vesting_params.vesting_period_duration)
        s.vesting_params.vesting_period_duration s.vesting_params.vesting_period_count
        s.precision ≤ unlockedFraction s.current_epoch
        (ps + s.vesting_params.vesting_period_duration)
        s.vesting_params.vesting_period_duration s.vesting_params.vesting_period_count
        s.precision := unlockedFraction_mono hdur hcnt hprec hwc
    unfold ccPeriodUnlocked
    apply fdivQ_mono_left _ (by exact_mod_cast hprec)
    rw [mul_comm]
    exact mul_le_mul_of_nonneg_left (Int.cast_le.2 hf) h0
  · exact ccPeriodUnlocked_nonneg h0 hcnt hprec

theorem foldl_preserve {α β : Type} (P : β → Prop) (f : β → α → β) :
    ∀ (l : List α) (b : β), P b → (∀ b2 x, x ∈ l → P b2 → P (f b2 x)) → P (l.foldl f b) := by
  intro l
  induction l with
  | nil => intro b hb _; exact hb
  | cons x xs ih =>
      intro b hb hstep
      exact ih (f b x) (hstep b x (List.mem_cons_self x xs) hb)
        (fun b2 y hy => hstep b2 y (List.mem_cons_of_mem x hy))

/-- Across the whole window loop, unlocked + withdrawn never exceeds earned
(given per-window `unlocked ≤ period_reward`). -/
theorem ccAgg_le_earned {s : TestScenarioParameters}
    (hpu : ∀ ps, ccPeriodUnlocked s ps ≤ ccPeriodReward s ps) :
    ccToClaimRaw s + ccTotalWithdrawnRaw s ≤ ccTotalEarnedRaw s := by
  unfold ccToClaimRaw ccTotalWithdrawnRaw ccTotalEarnedRaw ccAgg
  have hP := foldl_preserve (fun agg : CCAgg => agg.unlocked + agg.withdrawn ≤ agg.earned)
    (ccStep s) (ccWindowStarts s) ⟨0, 0, 0⟩ (by simp)
    (fun agg ps _ hagg => by
      unfold ccStep
      split_ifs with hskip
      · exact hagg
      · have := hpu ps
        simp only
        linarith)
  exact hP

theorem fillScenario_slashed_eq {s : TestScenarioParameters}
    (hf : s.failing_params.cc_fail_epoch ≠ 0) (he : s.failing_params.slashed_epochs = []) :
    (fillScenario s).failing_params.slashed_epochs =
      fillSlashedEpochsForFailure s.failing_params.cc_fail_epoch (maxFailAmount s)
        s.creation_params.cu_amount := by
  unfold fillScenario
  exact if_pos ⟨hf, he⟩

/-- C3 (confirmed): with `cc_fail_epoch = F > 0` and an empty supplied
schedule, construction auto-fills: with `M = max_fail_ratio * cu_amount`
(both ints, so `floor` is the identity), `base = M div cu_amount`,
`rem = M mod cu_amount`, every CU `c` in `1..cu_amount` receives the epochs
`[F-base+1 .. F]`, the first `rem` CUs additionally get `F-base` prepended,
and the total number of slashed epoch-units is exactly `M`. -/
theorem claim_C3 (s : TestScenarioParameters)
    (hF : 0 < s.failing_params.cc_fail_epoch)
    (hempty : s.failing_params.slashed_epochs = [])
    (hcu : 1 ≤ s.creation_params.cu_amount)
    (hmf : 0 ≤ s.network_params.max_fail_ratio) :
    (∀ c, 1 ≤ c → c ≤ s.creation_params.cu_amount →
      dictGet (fillScenario s).failing_params.slashed_epochs c =
        if c ≤ (maxFailAmount s).fmod s.creation_params.cu_amount then
          (s.failing_params.cc_fail_epoch -
              (maxFailAmount s).fdiv s.creation_params.cu_amount) ::
            intRange (s.failing_params.cc_fail_epoch -
                (maxFailAmount s).fdiv s.creation_params.cu_amount + 1)
              (s.failing_params.cc_fail_epoch + 1)
        else
          intRange (s.failing_params.cc_fail_epoch -
              (maxFailAmount s).fdiv s.creation_params.cu_amount + 1)
            (s.failing_params.cc_fail_epoch + 1)) ∧
    totalSlashed (fillScenario s).failing_params.slashed_epochs = maxFailAmount s := by
  have hslash := fillScenario_slashed_eq (by omega) hempty
  have hM : 0 ≤ maxFailAmount s := mul_nonneg hmf (by omega)
  constructor
  · intro c h1 h2
    rw [hslash, fillSlashed_get _ h1 h2]
    rfl
  · rw [hslash]
    exact fillSlashed_total _ (by omega) hM

/-- Witness for C3 at the concrete scenario `s3`
(`cc_fail_epoch = 5, max_fail_ratio = 2, cu_amount = 3`). -/
theorem claim_C3_witness :
    (0:ℤ) < s3.failing_params.cc_fail_epoch ∧ s3.failing_params.slashed_epochs = [] ∧
    (1:ℤ) ≤ s3.creation_params.cu_amount ∧ (0:ℤ) ≤ s3.network_params.max_fail_ratio ∧
    totalSlashed (fillScenario s3).failing_params.slashed_epochs = maxFailAmount s3 :=
  ⟨by decide, rfl, by decide, by decide,
   (claim_C3 s3 (by decide) rfl (by decide) (by decide)).2⟩

set_option maxRecDepth 40000 in
/-- C4 (counterexample): a validated input with `cc_fail_epoch` set whose
explicitly supplied slashing total (1) strictly exceeds
`max_fail_ratio * cu_amount = 0`, yet construction succeeds — refuting
"for every input whose total slashed-epoch count exceeds the bound,
construction fails". -/
theorem claim_C4_counterexample :
    validateAndNormalize cex4 = some cex4N ∧
    maxFailAmount cex4N < totalSlashed cex4N.failing_params.slashed_epochs :=
  ⟨by with_unfolding_all rfl, by decide⟩

/-- C4 (amended): in the auto-fill case the total equals the budget `M`
exactly; the construction-time total check accepts exactly `total ≥ M` when
`cc_fail_epoch` is set (so totals exceeding `M` are accepted), and exactly
`total ≤ M` when it is unset. -/
theorem claim_C4_amended (s : TestScenarioParameters)
    (hcu : 1 ≤ s.creation_params.cu_amount) (hmf : 0 ≤ s.network_params.max_fail_ratio) :
    ((s.failing_params.cc_fail_epoch ≠ 0 ∧ s.failing_params.slashed_epochs = []) →
      totalSlashed (fillScenario s).failing_params.slashed_epochs = maxFailAmount s) ∧
    (∀ ccFailEpoch total maxAmt : ℤ, ccFailEpoch ≠ 0 →
      (validateSlashedTotalsOk ccFailEpoch total maxAmt ↔ maxAmt ≤ total)) ∧
    (∀ total maxAmt : ℤ, validateSlashedTotalsOk 0 total maxAmt ↔ total ≤ maxAmt) := by
  refine ⟨?hfill, ?hset, ?hunset⟩
  · rintro ⟨hf, he⟩
    rw [fillScenario_slashed_eq hf he]
    exact fillSlashed_total _ (by omega) (mul_nonneg hmf (by omega))
  · intro ccFailEpoch total maxAmt hf
    constructor
    · intro hok; exact hok.1 hf
    · intro hle; exact ⟨fun _ => hle, fun h0 => absurd h0 hf⟩
  · intro total maxAmt
    constructor
    · intro hok; exact hok.2 rfl
    · intro hle; exact ⟨fun h0 => absurd rfl h0, fun _ => hle⟩

/-- Witness for the amended C4 at the concrete scenario `s4`. -/
theorem claim_C4_witness :
    (1:ℤ) ≤ s4.creation_params.cu_amount ∧ (0:ℤ) ≤ s4.network_params.max_fail_ratio ∧
    totalSlashed (fillScenario s4).failing_params.slashed_epochs = maxFailAmount s4 ∧
    (validateSlashedTotalsOk 3 9 2 ↔ (2:ℤ) ≤ 9) :=
  ⟨by decide, by decide,
   (claim_C4_amended s4 (by decide) (by decide)).1 ⟨by decide, rfl⟩,
   (claim_C4_amended s4 (by decide) (by decide)).2.1 3 9 2 (by decide)⟩

/-- C5 (confirmed): the accrual loop returns exactly the sum over the
half-open range of `(active_cu - slashed_cu) * rate`, with the deal
carve-out active exactly on deal-window epochs, and those epochs are the
ones recorded in the returned deal-epoch set. -/
theorem claim_C5 (s : TestScenarioParameters) (startEpoch endEpoch precision : ℤ) :
    periodRewardsForCC s startEpoch endEpoch precision =
      ∑ e ∈ Finset.Ico startEpoch endEpoch,
        ((activeCus s e - slashedCus s e : ℤ) : ℚ) * fltRewardPerEpoch s precision ∧
    (∀ e, e ∈ ccDealEpochs s startEpoch endEpoch ↔
      startEpoch ≤ e ∧ e < endEpoch ∧ dealActiveAt s e) := by
  constructor
  · rw [periodRewardsForCC_eq_sum]
    rfl
  · intro e
    unfold ccDealEpochs
    rw [List.mem_filter, mem_intRange]
    simp only [decide_eq_true_eq]
    tauto

/-- C7 (confirmed): for a fixed window end and positive vesting parameters,
the fixed-point unlocked fraction is monotone in the reference epoch and
equals exactly `precision` as soon as
`ref - window_end ≥ vesting_period_count * vesting_period_duration`. -/
theorem claim_C7 (periodEnd duration count precision : ℤ)
    (hdur : 0 < duration) (hcnt : 0 < count) (hprec : 0 ≤ precision) :
    (∀ cur1 cur2, cur1 ≤ cur2 →
      unlockedFraction cur1 periodEnd duration count precision ≤
        unlockedFraction cur2 periodEnd duration count precision) ∧
    (∀ cur, count * duration ≤ cur - periodEnd →
      unlockedFraction cur periodEnd duration count precision = precision) :=
  ⟨fun _ _ h => unlockedFraction_mono hdur hcnt hprec h,
   fun _ h => unlockedFraction_eq_prec hdur hcnt hprec h⟩

/-- Witness for C7 with `duration = 6, count = 2, precision = 10`,
window end 6. -/
theorem claim_C7_witness :
    (0:ℤ) < 6 ∧ (0:ℤ) < 2 ∧ (0:ℤ) ≤ 10 ∧
    unlockedFraction 7 6 6 2 10 ≤ unlockedFraction 9 6 6 2 10 ∧
    unlockedFraction 100 6 6 2 10 = 10 :=
  ⟨by decide, by decide, by decide,
   (claim_C7 6 6 2 10 (by decide) (by decide) (by decide)).1 7 9 (by decide),
   (claim_C7 6 6 2 10 (by decide) (by decide) (by decide)).2 100 (by decide)⟩

theorem ccEpochReward_nonneg_of_valid {s t : TestScenarioParameters}
    (h : validateAndNormalize s = some t) (hinv : dealSlashOk t) (e : ℤ) :
    0 ≤ ccEpochReward t e t.precision := by
  obtain ⟨-, -, d3, d4, d5, -, d7, d8, d9, -⟩ := vn_engineFacts h
  exact ccEpochReward_nonneg (slashedCus_le_activeCus hinv d9 d7 d8 e)
    (fltRewardPerEpoch_nonneg (le_of_lt d4) (le_of_lt d5) d3)

theorem sum_map_const (l : List ℤ) (c : ℚ) :
    (l.map (fun _ => c)).sum = (l.length : ℚ) * c := by
  induction l with
  | nil => simp
  | cons x xs ih =>
      simp only [List.map_cons, List.sum_cons, ih, List.length_cons]
      push_cast
      ring

set_option maxRecDepth 40000 in
/-- C1 (counterexample): `cex1` is accepted by construction, yet for its CC
stream `total_withdrawn + to_claim + in_vesting = 205000` (raw fixed point)
while `total_earned = 190000`: the books differ by `15000`, which exceeds
both one raw unit and one whole `precision` unit (`precision = 10`).  The
cause: the auto-filled slashing overlaps the deal window, making the last
window's reward negative while `in_vesting` clamps at zero. -/
theorem claim_C1_counterexample :
    validateAndNormalize cex1 = some cex1N ∧
    ccTotalEarnedRaw cex1N = 190000 ∧
    ccTotalWithdrawnRaw cex1N + ccToClaimRaw cex1N + ccInVestingRaw cex1N = 205000 ∧
    ccTotalEarnedRaw cex1N + (cex1N.precision : ℚ) <
      ccTotalWithdrawnRaw cex1N + ccToClaimRaw cex1N + ccInVestingRaw cex1N :=
  ⟨by with_unfolding_all rfl, by with_unfolding_all rfl, by with_unfolding_all rfl,
   by with_unfolding_all decide⟩

/-- C1 (amended): for every validated scenario with positive precision whose
NORMALIZED (post-auto-fill) schedule still satisfies the no-slash-during-deal
invariant, the CC stream satisfies `total_earned = total_withdrawn +
to_claim + in_vesting` exactly; the deal stream satisfies the same identity
exactly whenever its `total_earned` is at least `to_claim + total_withdrawn`
(the `max(0, ...)` clamp in `in_vesting` is what breaks it otherwise). -/
theorem claim_C1_amended (s t : TestScenarioParameters)
    (h : validateAndNormalize s = some t) (hprec : 0 < t.precision)
    (hinv : dealSlashOk t) :
    ccTotalEarnedRaw t = ccTotalWithdrawnRaw t + ccToClaimRaw t + ccInVestingRaw t ∧
    (dealToClaimRaw t + dealTotalWithdrawnRaw t ≤ dealTotalEarnedFltRaw t →
      dealTotalEarnedFltRaw t =
        dealTotalWithdrawnRaw t + dealToClaimRaw t + dealInVestingRaw t) := by
  have hrews := ccEpochReward_nonneg_of_valid h hinv
  have hple : ∀ ps, ccPeriodUnlocked t ps ≤ ccPeriodReward t ps := fun ps =>
    ccPeriodUnlocked_le_reward (ccPeriodReward_nonneg hrews ps) hprec
  have hagg := ccAgg_le_earned hple
  constructor
  · unfold ccInVestingRaw
    rw [max_eq_right (by linarith)]
    ring
  · intro hle
    unfold dealInVestingRaw
    rw [max_eq_right (by linarith)]
    ring

set_option maxRecDepth 40000 in
/-- Witness for the amended C1 at the validated scenario `w1`. -/
theorem claim_C1_witness :
    validateAndNormalize w1 = some w1N ∧ (0:ℤ) < w1N.precision ∧ dealSlashOk w1N ∧
    (ccTotalEarnedRaw w1N = ccTotalWithdrawnRaw w1N + ccToClaimRaw w1N + ccInVestingRaw w1N ∧
     (dealToClaimRaw w1N + dealTotalWithdrawnRaw w1N ≤ dealTotalEarnedFltRaw w1N →
       dealTotalEarnedFltRaw w1N =
         dealTotalWithdrawnRaw w1N + dealToClaimRaw w1N + dealInVestingRaw w1N)) :=
  ⟨by with_unfolding_all rfl, by decide, by decide,
   claim_C1_amended w1 w1N (by with_unfolding_all rfl) (by decide) (by decide)⟩

set_option maxRecDepth 40000 in
/-- C2 (code bug): at the validated scenario `sC2` (`current_epoch =
cc_start_epoch = 1`) the number of rewarded epochs is zero, and
`calculate_average_apr` fails with a bare `ZeroDivisionError` at
`avg_reward = total_reward * precision // total_epochs_rewarded`; no
explicit "no eligible epochs" condition exists anywhere in the source. -/
theorem claim_C2_code_bug :
    validateAndNormalize sC2 = some sC2N ∧
    aprTotalEpochsRewarded sC2N = 0 ∧
    calculate_average_apr 0 sC2N = .error .zeroDivisionError ∧
    calculate_average_apr 0 sC2N ≠ .error .noEligibleEpochs :=
  ⟨by with_unfolding_all rfl, by decide, by with_unfolding_all rfl, by
    have h1 : calculate_average_apr 0 sC2N = .error .zeroDivisionError := by
      with_unfolding_all rfl
    rw [h1]
    intro hcontra
    simp at hcontra⟩

set_option maxRecDepth 40000 in
/-- C6 (counterexample): in the validated scenario `cex1`, epoch 13 lies in
the processed window starting at 12, both CUs are slashed there while the
deal removes one CU, so `slashed_cu = 2 > 1 = active_cu` and the per-epoch
reward is negative: validation does NOT re-check the no-slash-during-deal
invariant after auto-filling the schedule. -/
theorem claim_C6_counterexample :
    validateAndNormalize cex1 = some cex1N ∧
    (12:ℤ) ∈ ccWindowStarts cex1N ∧
    max (12:ℤ) cex1N.creation_params.cc_start_epoch ≤ 13 ∧
    (13:ℤ) < min (12 + cex1N.vesting_params.vesting_period_duration) (ccLastCountable cex1N) ∧
    activeCus cex1N 13 < slashedCus cex1N 13 ∧
    ccEpochReward cex1N 13 cex1N.precision < 0 :=
  ⟨by with_unfolding_all rfl, by decide, by decide, by decide, by decide,
   by with_unfolding_all decide⟩

/-- C6 (amended): for every validated scenario whose NORMALIZED schedule
satisfies the no-slash-during-deal invariant (automatic when slashing is
supplied explicitly, but not guaranteed after auto-fill), every epoch has
`slashed_cu ≤ active_cu`, the epoch reward is exactly `slashed_cu * rate`
below the unslashed baseline `active_cu * rate`, and is never negative. -/
theorem claim_C6_amended (s t : TestScenarioParameters)
    (h : validateAndNormalize s = some t) (hinv : dealSlashOk t) (e : ℤ) :
    slashedCus t e ≤ activeCus t e ∧
    ccEpochReward t e t.precision =
      (activeCus t e : ℚ) * fltRewardPerEpoch t t.precision -
        (slashedCus t e : ℚ) * fltRewardPerEpoch t t.precision ∧
    0 ≤ ccEpochReward t e t.precision := by
  obtain ⟨-, -, d3, d4, d5, -, d7, d8, d9, -⟩ := vn_engineFacts h
  have hsla := slashedCus_le_activeCus hinv d9 d7 d8 e
  refine ⟨hsla, ?heq,
    ccEpochReward_nonneg hsla (fltRewardPerEpoch_nonneg (le_of_lt d4) (le_of_lt d5) d3)⟩
  unfold ccEpochReward
  push_cast
  ring

set_option maxRecDepth 40000 in
/-- Witness for the amended C6 at `w1`, epoch 3. -/
theorem claim_C6_witness :
    validateAndNormalize w1 = some w1N ∧ dealSlashOk w1N ∧
    (slashedCus w1N 3 ≤ activeCus w1N 3 ∧
     ccEpochReward w1N 3 w1N.precision =
       (activeCus w1N 3 : ℚ) * fltRewardPerEpoch w1N w1N.precision -
         (slashedCus w1N 3 : ℚ) * fltRewardPerEpoch w1N w1N.precision ∧
     0 ≤ ccEpochReward w1N 3 w1N.precision) :=
  ⟨by with_unfolding_all rfl, by decide,
   claim_C6_amended w1 w1N (by with_unfolding_all rfl) (by decide) 3⟩

set_option maxRecDepth 40000 in
/-- C8 (counterexample): in the validated scenario `cex2`
(`current_epoch = 24`, `withdrawal_epoch = 23`), the window starting at 12
has `unlocked = -30000 < withdrawn = -15000`: its period reward is negative
(auto-filled slashing inside the deal window) and the unlock formula then
moves AWAY from zero as the reference epoch grows, so the window's
withdrawn amount exceeds its unlocked amount and the window's to-claim
contribution is negative. -/
theorem claim_C8_counterexample :
    validateAndNormalize cex2 = some cex2N ∧
    (12:ℤ) ∈ ccWindowStarts cex2N ∧
    ccPeriodUnlocked cex2N 12 < ccPeriodWithdrawn cex2N 12 ∧
    ccPeriodUnlocked cex2N 12 - ccPeriodWithdrawn cex2N 12 < 0 :=
  ⟨by with_unfolding_all rfl, by decide, by with_unfolding_all decide,
   by with_unfolding_all decide⟩

/-- C8 (amended): for every validated scenario whose NORMALIZED schedule
satisfies the no-slash-during-deal invariant (so window rewards are
nonnegative), every vesting window's withdrawn amount is at most its
unlocked amount and its contribution `unlocked - withdrawn` to the to-claim
accumulator is nonnegative. -/
theorem claim_C8_amended (s t : TestScenarioParameters)
    (h : validateAndNormalize s = some t) (hinv : dealSlashOk t) (ps : ℤ) :
    ccPeriodWithdrawn t ps ≤ ccPeriodUnlocked t ps ∧
    0 ≤ ccPeriodUnlocked t ps - ccPeriodWithdrawn t ps := by
  have hrews := ccEpochReward_nonneg_of_valid h hinv
  obtain ⟨d1, d2, d3, -, -, -, -, -, -, d10⟩ := vn_engineFacts h
  have h0 := ccPeriodReward_nonneg hrews ps
  have hle := ccPeriodWithdrawn_le_unlocked h0 d1 d2 d3 d10
  exact ⟨hle, by linarith⟩

set_option maxRecDepth 40000 in
/-- Witness for the amended C8 at `w1`, window start 0. -/
theorem claim_C8_witness :
    validateAndNormalize w1 = some w1N ∧ dealSlashOk w1N ∧
    (ccPeriodWithdrawn w1N 0 ≤ ccPeriodUnlocked w1N 0 ∧
     0 ≤ ccPeriodUnlocked w1N 0 - ccPeriodWithdrawn w1N 0) :=
  ⟨by with_unfolding_all rfl, by decide,
   claim_C8_amended w1 w1N (by with_unfolding_all rfl) (by decide) 0⟩

set_option maxRecDepth 40000 in
/-- C9 (counterexample): in the validated one-epoch deal scenario `w9`
(staking rate 50), the sum of the per-epoch token rewards over the countable
range is `5` while the reported `total_earned_flt` is `10`: the total is NOT
the sum of the staking-scaled per-epoch rewards. -/
theorem claim_C9_counterexample :
    validateAndNormalize w9 = some w9N ∧
    ((dealEpochList w9N).map (fun _ => dealPerEpochFlt w9N)).sum = 5 ∧
    dealTotalEarnedFltRaw w9N = 10 ∧
    ((dealEpochList w9N).map (fun _ => dealPerEpochFlt w9N)).sum ≠
      dealTotalEarnedFltRaw w9N :=
  ⟨by with_unfolding_all rfl, by with_unfolding_all rfl, by with_unfolding_all rfl,
   by with_unfolding_all decide⟩

/-- C9 (amended): the deal loop's per-epoch token reward is
`int(price_per_cu_in_offer_usd * precision) * amount_of_cu_to_move_to_deal *
(staking_rate * precision / 100) // int(flt_usd_price * precision)` — the
fixed-point form of "price times CUs, converted at `flt_usd_price`, scaled
by `staking_rate/100`" — and the per-epoch rewards of the countable range
sum to `epochs * per_epoch`; but the reported deal `total_earned` (FLT)
equals `total_epochs_rewarded * price_per_cu_in_offer_usd *
amount_of_cu_to_move_to_deal * precision // flt_usd_price`, WITHOUT the
staking-rate scaling, so it is not the sum of those per-epoch rewards. -/
theorem claim_C9_amended (s : TestScenarioParameters) :
    dealTotalEarnedFltRaw s =
      fdivQ ((dealEpochsRewarded s : ℚ) * s.deal_params.price_per_cu_in_offer_usd *
        (s.deal_params.amount_of_cu_to_move_to_deal : ℚ) * (s.precision : ℚ))
        s.network_params.flt_usd_price ∧
    dealPerEpochFlt s =
      fdivQ (((pyInt (s.deal_params.price_per_cu_in_offer_usd * (s.precision : ℚ)) *
          s.deal_params.amount_of_cu_to_move_to_deal : ℤ) : ℚ) *
        (((s.creation_params.staking_rate * s.precision : ℤ) : ℚ) / 100))
        ((pyInt (s.network_params.flt_usd_price * (s.precision : ℚ)) : ℤ) : ℚ) ∧
    ((dealEpochList s).map (fun _ => dealPerEpochFlt s)).sum =
      ((dealEpochList s).length : ℚ) * dealPerEpochFlt s :=
  ⟨rfl, rfl, sum_map_const _ _⟩

/-- C10 (confirmed, implicit): every field of the report returned by
`calculate_vesting` is `round(raw / 10^7, 4)` with the CONSTANT default
scale `10^7` — the scenario `precision` is never passed to
`round_to_precision` there — while the internal accrual uses the scenario
precision (`ccPeriodReward` calls the accrual with `s.precision`). -/
theorem claim_C10 (s : TestScenarioParameters) :
    calculate_vesting s =
      { total_earned := round_to_precision (ccTotalEarnedRaw s) (10^7)
        total_withdrawn := round_to_precision (ccTotalWithdrawnRaw s) (10^7)
        to_claim := round_to_precision (ccToClaimRaw s) (10^7)
        in_vesting := round_to_precision (ccInVestingRaw s) (10^7)
        provider_rewards := round_to_precision (ccProviderRewardsRaw s) (10^7)
        staker_rewards := round_to_precision (ccStakerRewardsRaw s) (10^7) } ∧
    (∀ ps, ccPeriodReward s ps = periodRewardsForCC s
      (max ps s.creation_params.cc_start_epoch)
      (min (ps + s.vesting_params.vesting_period_duration) (ccLastCountable s))
      s.precision) :=
  ⟨rfl, fun _ => rfl⟩
